import Mathlib

/-!
Verification development for the trade-cli repository.

The development shallowly embeds the signal interpretation engine:
the multi-line options entry parser and the reply parser
(src/lib/options-signal-parser.js), the legacy single-line signal
parser (src/lib/signal-parser.js), the signal store
(src/lib/signal-manager.js, concatenated into src/lib/angelone.js),
and the store-effect part of the reply dispatcher (src/index.js,
handleReplyMessage).

Modelling conventions:
  - JS strings are lists of characters (`Str`); the case-insensitive
    regex flag is modelled by upper-casing the text before matching
    with upper-case literals, which agrees with the source because
    every textual capture is upper-cased by the source before use.
  - JS numbers produced by parseFloat on decimal literals are modelled
    exactly as canonical decimals (`Dec`, a mantissa with a power-of-ten
    scale); `Dec.toRat` gives their rational value and `halfDec` is the
    only arithmetic the engine performs (multiplication by 0.5, which is
    exact both on JS doubles of this magnitude and on decimals).
    NaN is modelled as `none` where it can arise.
  - Timestamps (new Date().toISOString()) are modelled as an explicit
    `now : Nat` parameter to every operation that stamps a time.
  - The in-memory `Map` keyed by messageId is an association list with
    the JS `Map.set` semantics (update in place, else append), which
    preserves insertion order exactly as `Array.from(map.values())`
    observes it.
-/

/-! ## Characters and strings -/

/-- Characters of a JS string. -/
abbrev Str := List Char

/-- Convert a Lean string literal to the character-list model. -/
def str (s : String) : Str := s.data

/-- The JS whitespace class used by `\s` and by `String.prototype.trim`
(restricted to the ASCII whitespace characters that can occur here). -/
def isWsChar (c : Char) : Bool :=
  c == ' ' || c == '\t' || c == '\n' || c == '\r' || c == '\x0b' || c == '\x0c'

/-- JS `String.prototype.trim`. -/
def trimChars (s : Str) : Str :=
  (((s.dropWhile isWsChar).reverse).dropWhile isWsChar).reverse

/-- JS `String.prototype.toUpperCase` on ASCII text. -/
def upperChars (s : Str) : Str := s.map Char.toUpper

/-- JS `String.prototype.includes`: does `needle` occur as a contiguous
substring of the second argument? -/
def containsSub (needle : Str) : Str → Bool
  | [] => needle.isEmpty
  | c :: rest => needle.isPrefixOf (c :: rest) || containsSub needle rest

/-- Match a literal token at the start of the text, returning the rest. -/
def lit (w : Str) (s : Str) : Option Str :=
  if w.isPrefixOf s then some (s.drop w.length) else none

/-- Regex `\s+` (greedy): requires at least one whitespace character and
consumes the maximal run.  All patterns in the source follow `\s+` with a
character that is never whitespace, so the maximal-munch reading is exact. -/
def ws1 (s : Str) : Option Str :=
  match s with
  | c :: rest => if isWsChar c then some (rest.dropWhile isWsChar) else none
  | [] => none

/-! ## Exact decimal numbers -/

/-- An exact decimal number: `num` scaled down by `10 ^ exp`.  Values are
kept canonical (no factor of ten shared between mantissa and scale), so
propositional equality of `Dec` values coincides with equality of the
rational values they denote. -/
structure Dec where
  num : Int
  exp : Nat
  deriving DecidableEq, Repr

/-- Canonicalize a mantissa and scale by cancelling factors of ten. -/
def canonDec : Int → Nat → Dec
  | n, 0 => ⟨n, 0⟩
  | n, e + 1 => if n % 10 = 0 then canonDec (n / 10) e else ⟨n, e + 1⟩

/-- Build a canonical decimal. -/
def dec (n : Int) (e : Nat) : Dec := canonDec n e

instance (n : Nat) : OfNat Dec n := ⟨⟨n, 0⟩⟩

/-- The rational value of a decimal. -/
def Dec.toRat (d : Dec) : ℚ := (d.num : ℚ) / 10 ^ d.exp

/-- The halving performed on the stated stop loss (`definedSL * 0.5` in
the source): exact on decimals, multiplying the mantissa by five when it
is odd. -/
def halfDec (d : Dec) : Dec :=
  if d.num % 2 = 0 then canonDec (d.num / 2) d.exp
  else canonDec (5 * d.num) (d.exp + 1)

theorem canonDec_toRat : ∀ (e : Nat) (n : Int), (canonDec n e).toRat = (n : ℚ) / 10 ^ e := by
  intro e
  induction e with
  | zero => intro n; rfl
  | succ e ih =>
    intro n
    rw [canonDec]
    split
    · rename_i h
      obtain ⟨k, hk⟩ := Int.dvd_of_emod_eq_zero h
      subst hk
      rw [Int.mul_ediv_cancel_left _ (by norm_num), ih]
      push_cast
      rw [pow_succ]
      field_simp
      ring
    · rfl

/-- The halving is exactly multiplication by one half on rational
values. -/
theorem halfDec_toRat (d : Dec) : (halfDec d).toRat = d.toRat * (1 / 2) := by
  rw [halfDec]
  split
  · rename_i h
    obtain ⟨k, hk⟩ := Int.dvd_of_emod_eq_zero h
    rw [canonDec_toRat, Dec.toRat, hk, Int.mul_ediv_cancel_left _ (by norm_num)]
    push_cast
    field_simp
    ring
  · rw [canonDec_toRat, Dec.toRat]
    push_cast
    rw [pow_succ]
    field_simp
    ring

/-- Value of a digit string. -/
def digitsToNat (ds : Str) : Nat :=
  ds.foldl (fun n c => 10 * n + (c.toNat - 48)) 0

/-- Regex `\d+(?:\.\d+)?` at the start of the text: the parsed decimal
value and the rest of the text.  When a dot is not followed by a digit the
optional fraction group is not taken, exactly as in the source regexes. -/
def matchNumber (s : Str) : Option (Dec × Str) :=
  let ds := s.takeWhile Char.isDigit
  let r1 := s.dropWhile Char.isDigit
  if ds.isEmpty then none
  else
    match r1 with
    | '.' :: r2 =>
      let fs := r2.takeWhile Char.isDigit
      let r3 := r2.dropWhile Char.isDigit
      if fs.isEmpty then some (dec (digitsToNat ds) 0, r1)
      else some (dec (digitsToNat (ds ++ fs)) fs.length, r3)
    | _ => some (dec (digitsToNat ds) 0, r1)

/-- JS `parseFloat` on a token: longest valid decimal prefix, `none` for
NaN.  Exponent notation and Infinity are not modelled; no input considered
here contains them. -/
def jsParseFloat (t : Str) : Option Dec :=
  let t1 := t.dropWhile isWsChar
  let p : Int × Str :=
    match t1 with
    | '-' :: r => (-1, r)
    | '+' :: r => (1, r)
    | _ => (1, t1)
  let ds := p.2.takeWhile Char.isDigit
  let r1 := p.2.dropWhile Char.isDigit
  match r1 with
  | '.' :: r2 =>
    let fs := r2.takeWhile Char.isDigit
    if ds.isEmpty && fs.isEmpty then none
    else some (dec (p.1 * digitsToNat (ds ++ fs)) fs.length)
  | _ => if ds.isEmpty then none else some (dec (p.1 * digitsToNat ds) 0)

/-- Split on runs of whitespace, as JS `split` with a whitespace-run regex
behaves on trimmed text (no empty tokens). -/
def splitWsAux : Str → Str → List Str
  | [], acc => if acc.isEmpty then [] else [acc.reverse]
  | c :: rest, acc =>
    if isWsChar c then
      if acc.isEmpty then splitWsAux rest []
      else acc.reverse :: splitWsAux rest []
    else splitWsAux rest (c :: acc)

/-- JS `targetsStr.split` on whitespace runs (the source first trims). -/
def splitWs (s : Str) : List Str := splitWsAux s []

/-- Split a text into its lines, as JS `split` on a newline separator. -/
def splitLines : Str → List Str
  | [] => [[]]
  | c :: rest =>
    match splitLines rest with
    | [] => [[]]
    | h :: t => if c == '\n' then [] :: h :: t else (c :: h) :: t

/-! ## Options entry parser (src/lib/options-signal-parser.js) -/

/-- Line preprocessing of `parseOptionsSignal`: trim the message, split on
newlines, trim each line, drop empty lines. -/
def entryLines (message : Str) : List Str :=
  ((splitLines (trimChars message)).map trimChars).filter (fun l => !l.isEmpty)

/-- Character class of the symbol group in the line-1 regex, on
upper-cased text. -/
def symChar (c : Char) : Bool :=
  c.isUpper || c.isDigit || c == '&' || c == '_' || c == '-'

/-- Line-1 regex of `parseOptionsSignal`: an anchored, case-insensitive
match of an action word, whitespace, and a symbol made of the symbol
character class.  Returns the upper-cased action and symbol captures. -/
def matchLine1 (line : Str) : Option (Str × Str) := do
  let u := upperChars line
  let ar ←
    match lit (str "BUY") u with
    | some r => some (str "BUY", r)
    | none =>
      match lit (str "SELL") u with
      | some r => some (str "SELL", r)
      | none => none
  let r1 ← ws1 ar.2
  let sym := r1.takeWhile symChar
  let rest := r1.dropWhile symChar
  if sym.isEmpty || !rest.isEmpty then none
  else pure (ar.1, sym)

/-- Line-2 regex of `parseOptionsSignal`: anchored
strike number, option type CE or PE, the word ABOVE, entry price number. -/
def matchLine2 (line : Str) : Option (Dec × Str × Dec) := do
  let u := upperChars line
  let sr ← matchNumber u
  let r2 ← ws1 sr.2
  let or2 ←
    match lit (str "CE") r2 with
    | some r => some (str "CE", r)
    | none =>
      match lit (str "PE") r2 with
      | some r => some (str "PE", r)
      | none => none
  let r4 ← ws1 or2.2
  let r5 ← lit (str "ABOVE") r4
  let r6 ← ws1 r5
  let pr ← matchNumber r6
  if pr.2.isEmpty then pure (sr.1, or2.1, pr.1) else none

/-- Line-3 regex of `parseOptionsSignal`: anchored SL, a number, TARGET,
and a non-empty tail capture.  The tail capture is taken after the greedy
whitespace run, which agrees with the source on the trimmed lines the
parser feeds it. -/
def matchLine3 (line : Str) : Option (Dec × Str) := do
  let u := upperChars line
  let r1 ← lit (str "SL") u
  let r2 ← ws1 r1
  let sr ← matchNumber r2
  let r4 ← ws1 sr.2
  let r5 ← lit (str "TARGET") r4
  let r6 ← ws1 r5
  if r6.isEmpty then none else pure (sr.1, r6)

/-- Line-4 regex of `parseOptionsSignal`: anchored month name and the
word SERIES; returns the upper-cased month name capture. -/
def matchLine4 (line : Str) : Option Str := do
  let u := upperChars line
  let name := u.takeWhile Char.isUpper
  let r1 := u.dropWhile Char.isUpper
  if name.isEmpty then none
  else do
    let r2 ← ws1 r1
    let r3 ← lit (str "SERIES") r2
    if r3.isEmpty then pure name else none

/-- The fixed twelve-entry month-name table MONTH_MAP. -/
def monthMap (m : Str) : Option Str :=
  if m = str "JANUARY" then some (str "JAN")
  else if m = str "FEBRUARY" then some (str "FEB")
  else if m = str "MARCH" then some (str "MAR")
  else if m = str "APRIL" then some (str "APR")
  else if m = str "MAY" then some (str "MAY")
  else if m = str "JUNE" then some (str "JUN")
  else if m = str "JULY" then some (str "JUL")
  else if m = str "AUGUST" then some (str "AUG")
  else if m = str "SEPTEMBER" then some (str "SEP")
  else if m = str "OCTOBER" then some (str "OCT")
  else if m = str "NOVEMBER" then some (str "NOV")
  else if m = str "DECEMBER" then some (str "DEC")
  else none

/-- The target-list handling of `parseOptionsSignal`: split the tail
capture (trimmed) on whitespace, parse each token with parseFloat, keep
the non-NaN values. -/
def parseTargets (raw : Str) : List Dec :=
  (splitWs (trimChars raw)).filterMap jsParseFloat

/-- Expiry resolution of `parseOptionsSignal`: when a fourth line matches
the month-and-SERIES pattern, the month table value or the first three
characters of the name; otherwise the current month code, passed here as
the parameter `nowMonth` (the source reads the clock). -/
def parseExpiry (nowMonth : Str) (lines : List Str) : Str :=
  if 4 ≤ lines.length then
    match matchLine4 (lines.getD 3 []) with
    | some name => (monthMap name).getD (name.take 3)
    | none => nowMonth
  else nowMonth

/-- A tracked options signal, with the fields the source objects carry.
Fields absent on the freshly parsed object (orderId, closeReason,
exitPrice, timestamps) default to none or zero. -/
structure Signal where
  messageId : Nat
  action : Str
  symbol : Str
  strike : Dec
  optionType : Str
  entryPrice : Dec
  stopLoss : Dec
  originalSL : Dec
  target : Option Dec
  expiry : Str
  status : Str
  orderId : Option Str := none
  closeReason : Option Str := none
  exitPrice : Option Dec := none
  createdAt : Nat := 0
  updatedAt : Nat := 0
  closedAt : Option Nat := none
  deriving DecidableEq, Repr

/-- parseOptionsSignal of src/lib/options-signal-parser.js.  The current
month code is passed as `nowMonth`.  The source guard on non-string input
is outside the typed model; the empty string is rejected by the line-count
check exactly as the source falsy guard rejects it. -/
def parseOptionsSignal (nowMonth : Str) (message : Str) (messageId : Nat) :
    Option Signal :=
  if (entryLines message).length < 3 then none
  else
    match matchLine1 ((entryLines message).getD 0 []) with
    | none => none
    | some (action, symbol) =>
      match matchLine2 ((entryLines message).getD 1 []) with
      | none => none
      | some (strike, optionType, entryPrice) =>
        match matchLine3 ((entryLines message).getD 2 []) with
        | none => none
        | some (definedSL, targetsRaw) =>
          some
            { messageId := messageId
              action := action
              symbol := symbol
              strike := strike
              optionType := optionType
              entryPrice := entryPrice
              stopLoss := halfDec definedSL
              originalSL := definedSL
              target := (parseTargets targetsRaw).head?
              expiry := parseExpiry nowMonth (entryLines message)
              status := str "PENDING" }

example :
    parseOptionsSignal (str "JAN")
      (str "BUY HINDZINC\n750 CE ABOVE 33\nSL 30.5 TARGET 36 40\nFEBRUARY SERIES") 1 =
    some
      { messageId := 1, action := str "BUY", symbol := str "HINDZINC",
        strike := 750, optionType := str "CE", entryPrice := 33,
        stopLoss := dec 1525 2, originalSL := dec 305 1, target := some 36,
        expiry := str "FEB", status := str "PENDING" } := by decide

/-! ## Reply parser (src/lib/options-signal-parser.js, parseReplyMessage) -/

/-- The tagged reply actions that `parseReplyMessage` can produce. -/
inductive ReplyAction where
  | BOOK_PROFIT (price : Option Dec)
  | EXIT_COST
  | WAIT
  | FOLLOW
  | SL_HIT
  | REVISED_ENTRY (price : Dec) (newSL : Dec)
  | UPDATE_SL (newSL : Dec)
  | UPDATE_TARGET (newTarget : Dec)
  | UPDATE_SL_TARGET (newSL : Dec) (newTarget : Dec)
  deriving DecidableEq, Repr

/-- Generic unanchored regex search: try the position matcher at every
suffix, leftmost match wins, exactly as a regex engine scans. -/
def scan (f : Str → Option α) : Str → Option α
  | [] => f []
  | c :: rest =>
    match f (c :: rest) with
    | some a => some a
    | none => scan f rest

/-- An optional literal token followed by whitespace, as in the regexes
with shape like an optional UPDATE prefix.  In every use the token and
the pattern that follows it begin with different letters, so the engine
never needs to retry without the token once the token and its whitespace
have matched. -/
def optTok (w : Str) (s : Str) : Str :=
  match lit w s with
  | some r =>
    match ws1 r with
    | some r2 => r2
    | none => s
  | none => s

/-- Tail of the SL-update regex at a position: SL, whitespace, an optional
TO, and the captured number. -/
def slCore (s : Str) : Option Dec := do
  let r1 ← lit (str "SL") s
  let r2 ← ws1 r1
  let r3 := optTok (str "TO") r2
  let nr ← matchNumber r3
  pure nr.1

/-- The full SL-update regex at a position, with the optional UPDATE,
TRAIL and NEW prefixes. -/
def slUpdateCore (s : Str) : Option Dec :=
  slCore (optTok (str "NEW") (optTok (str "TRAIL") (optTok (str "UPDATE") s)))

/-- Tail of the target-update regex after the TARGET or TGT word:
whitespace, an optional TO, and the captured number. -/
def tgtWordTail (s : Str) : Option Dec := do
  let r2 ← ws1 s
  let r3 := optTok (str "TO") r2
  let nr ← matchNumber r3
  pure nr.1

/-- The TARGET-or-TGT alternation followed by its tail, at a position. -/
def tgtWord (s : Str) : Option Dec :=
  match lit (str "TARGET") s with
  | some r => tgtWordTail r
  | none =>
    match lit (str "TGT") s with
    | some r => tgtWordTail r
    | none => none

/-- The full target-update regex at a position, with the optional UPDATE
and NEW prefixes. -/
def tgtUpdateCore (s : Str) : Option Dec :=
  tgtWord (optTok (str "NEW") (optTok (str "UPDATE") s))

/-- The combined SL-and-target regex at a position: SL, a number, TARGET
or TGT, a number. -/
def slTargetCore (s : Str) : Option (Dec × Dec) := do
  let r1 ← lit (str "SL") s
  let r2 ← ws1 r1
  let n1 ← matchNumber r2
  let r4 ← ws1 n1.2
  let r5 ←
    match lit (str "TARGET") r4 with
    | some r => some r
    | none => lit (str "TGT") r4
  let r6 ← ws1 r5
  let n2 ← matchNumber r6
  pure (n1.1, n2.1)

/-- Rule 1: an anchored optional price, optional comma, whitespace, and
the phrase BOOK OR TRAIL. -/
def ruleBook (t : Str) : Option ReplyAction := do
  let p : Option Dec × Str :=
    match matchNumber t with
    | some (q, r) => (some q, r)
    | none => (none, t)
  let r1 := match p.2 with | ',' :: r => r | _ => p.2
  let r2 := r1.dropWhile isWsChar
  let r3 ← lit (str "BOOK") r2
  let r4 ← ws1 r3
  let r5 ← lit (str "OR") r4
  let r6 ← ws1 r5
  let r7 ← lit (str "TRAIL") r6
  if r7.isEmpty then pure (.BOOK_PROFIT p.1) else none

/-- Rule 2: containment of one of the exit-at-cost phrases. -/
def ruleCost (t : Str) : Option ReplyAction :=
  if containsSub (str "CLOSE NEAR COST") t || containsSub (str "CLOSE AT COST") t
      || containsSub (str "EXIT NEAR COST") t then
    some .EXIT_COST
  else none

/-- Rule 3: containment of WAIT TO ACTIVATE or the exact text WAIT. -/
def ruleWait (t : Str) : Option ReplyAction :=
  if containsSub (str "WAIT TO ACTIVATE") t || t == str "WAIT" then some .WAIT else none

/-- Rule 4: containment of FOLLOW IT or the exact text FOLLOW. -/
def ruleFollow (t : Str) : Option ReplyAction :=
  if containsSub (str "FOLLOW IT") t || t == str "FOLLOW" then some .FOLLOW else none

/-- Rule 5: one of the exact stop-loss-hit texts. -/
def ruleSlHit (t : Str) : Option ReplyAction :=
  if t == str "SL" || t == str "SL HIT" || t == str "STOP LOSS" || t == str "STOPLOSS" then
    some .SL_HIT
  else none

/-- Rule 6: the anchored revised-entry pattern BUY AT CMP price, SL
price, with a run of commas and whitespace between the numbers. -/
def ruleRevised (t : Str) : Option ReplyAction := do
  let r1 ← lit (str "BUY") t
  let r2 ← ws1 r1
  let r3 ← lit (str "AT") r2
  let r4 ← ws1 r3
  let r5 ← lit (str "CMP") r4
  let r6 ← ws1 r5
  let n1 ← matchNumber r6
  let r8 ←
    match n1.2 with
    | c :: rest =>
      if c == ',' || isWsChar c then
        some (rest.dropWhile (fun d => d == ',' || isWsChar d))
      else none
    | [] => none
  let r9 ← lit (str "SL") r8
  let r10 ← ws1 r9
  let n2 ← matchNumber r10
  if n2.2.isEmpty then pure (.REVISED_ENTRY n1.1 n2.1) else none

/-- Rule 7: an unanchored SL update, blocked when the text also contains
TARGET. -/
def ruleSlUpdate (t : Str) : Option ReplyAction :=
  match scan slUpdateCore t with
  | some q => if containsSub (str "TARGET") t then none else some (.UPDATE_SL q)
  | none => none

/-- Rule 8: an unanchored target update, blocked when the text contains
HIT, DONE or BOOK. -/
def ruleTargetUpdate (t : Str) : Option ReplyAction :=
  match scan tgtUpdateCore t with
  | some q =>
    if containsSub (str "HIT") t || containsSub (str "DONE") t
        || containsSub (str "BOOK") t then none
    else some (.UPDATE_TARGET q)
  | none => none

/-- Rule 9: the unanchored combined SL-and-target update. -/
def ruleSlTarget (t : Str) : Option ReplyAction :=
  (scan slTargetCore t).map fun p => .UPDATE_SL_TARGET p.1 p.2

/-- Rule 10: a short text beginning with a bare number. -/
def rulePriceOnly (t : Str) : Option ReplyAction :=
  match matchNumber t with
  | some (q, _) => if t.length < 20 then some (.BOOK_PROFIT (some q)) else none
  | none => none

/-- parseReplyMessage of src/lib/options-signal-parser.js: the ordered
cascade over the upper-cased trimmed text, first matching rule wins. -/
def parseReplyMessage (message : Str) : Option ReplyAction :=
  let t := upperChars (trimChars message)
  (ruleBook t).orElse fun _ =>
  (ruleCost t).orElse fun _ =>
  (ruleWait t).orElse fun _ =>
  (ruleFollow t).orElse fun _ =>
  (ruleSlHit t).orElse fun _ =>
  (ruleRevised t).orElse fun _ =>
  (ruleSlUpdate t).orElse fun _ =>
  (ruleTargetUpdate t).orElse fun _ =>
  (ruleSlTarget t).orElse fun _ =>
  rulePriceOnly t

example : parseReplyMessage (str "WAIT TO ACTIVATE") = some .WAIT := by decide
example : parseReplyMessage (str "SL") = some .SL_HIT := by decide
example : parseReplyMessage (str "SL 35") = some (.UPDATE_SL 35) := by decide
example : parseReplyMessage (str "36.4, BOOK OR TRAIL") = some (.BOOK_PROFIT (some (dec 364 1))) := by decide
example : parseReplyMessage (str "BUY AT CMP 58, SL 53") = some (.REVISED_ENTRY 58 53) := by decide
example : parseReplyMessage (str "TRAIL SL TO 35") = some (.UPDATE_SL 35) := by decide
example : parseReplyMessage (str "TARGET 45") = some (.UPDATE_TARGET 45) := by decide
example : parseReplyMessage (str "SL 35 TARGET 45") = some (.UPDATE_TARGET 45) := by decide
example : parseReplyMessage (str "SL 35 TGT 45") = some (.UPDATE_SL 35) := by decide
example : parseReplyMessage (str "36.4") = some (.BOOK_PROFIT (some (dec 364 1))) := by decide
example : parseReplyMessage (str "FOLLOW IT") = some .FOLLOW := by decide
example : parseReplyMessage (str "hello there") = none := by decide

/-! ## Legacy single-line parser (src/lib/signal-parser.js) -/

/-- The capture groups of SIGNAL_REGEX, on the upper-cased trimmed text:
action, optional exchange, symbol, quantity, the price group (`none` when
the MARKET alternative matched) and the optional product type. -/
structure SigGroups where
  action : Str
  exchange : Option Str
  symbol : Str
  quantity : Nat
  price : Option Dec
  product : Option Str
  deriving DecidableEq, Repr

/-- The anchored SIGNAL_REGEX of src/lib/signal-parser.js, matched
against the upper-cased trimmed text.  The optional exchange group is
resolved by looking for a letter run followed by a colon, which is
exactly where the backtracking engine ends up because the colon belongs
to neither the exchange class nor the symbol class. -/
def matchSignalRegex (t : Str) : Option SigGroups := do
  let ar ←
    match lit (str "BUY") t with
    | some r => some (str "BUY", r)
    | none =>
      match lit (str "SELL") t with
      | some r => some (str "SELL", r)
      | none => none
  let r1 ← ws1 ar.2
  let exLetters := r1.takeWhile Char.isUpper
  let exRest := r1.dropWhile Char.isUpper
  let er : Option Str × Str :=
    match exRest with
    | ':' :: r => if exLetters.isEmpty then (none, r1) else (some exLetters, r)
    | _ => (none, r1)
  let sym := er.2.takeWhile symChar
  let r2 := er.2.dropWhile symChar
  if sym.isEmpty then none
  else do
    let r3 ← ws1 r2
    let qty := r3.takeWhile Char.isDigit
    let r4 := r3.dropWhile Char.isDigit
    if qty.isEmpty then none
    else do
      let r5 ← ws1 r4
      let pr : Option Dec × Str ←
        match r5 with
        | '@' :: r6 =>
          match matchNumber (r6.dropWhile isWsChar) with
          | some (q, r7) => some ((some q, r7) : Option Dec × Str)
          | none => none
        | _ =>
          match lit (str "MARKET") r5 with
          | some r6 => some ((none, r6) : Option Dec × Str)
          | none => none
      if pr.2.isEmpty then
        pure
          { action := ar.1, exchange := er.1, symbol := sym,
            quantity := digitsToNat qty, price := pr.1, product := none }
      else do
        let r8 ← ws1 pr.2
        let prod ←
          match lit (str "DELIVERY") r8 with
          | some r => some (str "DELIVERY", r)
          | none =>
            match lit (str "INTRADAY") r8 with
            | some r => some (str "INTRADAY", r)
            | none => none
        if prod.2.isEmpty then
          pure
            { action := ar.1, exchange := er.1, symbol := sym,
              quantity := digitsToNat qty, price := pr.1, product := some prod.1 }
        else none

/-- The structured result of the legacy parser.  The price is an optional
decimal: `none` models the NaN that parseFloat would yield on an absent
price group, a case that is in fact unreachable because an absent price
group means the text contained the word MARKET. -/
structure TradeSignal where
  action : Str
  symbol : Str
  quantity : Nat
  price : Option Dec
  orderType : Str
  exchange : Str
  productType : Str
  deriving DecidableEq, Repr

/-- parseSignal of src/lib/signal-parser.js: match the anchored regex,
then decide market-versus-limit by testing whether the upper-cased text
contains the substring MARKET anywhere. -/
def parseSignal (message : Str) : Option TradeSignal :=
  let t := upperChars (trimChars message)
  match matchSignalRegex t with
  | none => none
  | some g =>
    let isMarketOrder := containsSub (str "MARKET") t
    some
      { action := g.action
        symbol := g.symbol
        quantity := g.quantity
        price := if isMarketOrder then some 0 else g.price
        orderType := if isMarketOrder then str "MARKET" else str "LIMIT"
        exchange := g.exchange.getD (str "NSE")
        productType := g.product.getD (str "INTRADAY") }

example :
    parseSignal (str "BUY RELIANCE 100 @ 2500") =
    some
      { action := str "BUY", symbol := str "RELIANCE", quantity := 100,
        price := some 2500, orderType := str "LIMIT", exchange := str "NSE",
        productType := str "INTRADAY" } := by decide
example :
    parseSignal (str "buy nse:sbin 200 @ 750.5 delivery") =
    some
      { action := str "BUY", symbol := str "SBIN", quantity := 200,
        price := some (dec 7505 1), orderType := str "LIMIT", exchange := str "NSE",
        productType := str "DELIVERY" } := by decide
example :
    parseSignal (str "BUY RELIANCE 100 MARKET") =
    some
      { action := str "BUY", symbol := str "RELIANCE", quantity := 100,
        price := some 0, orderType := str "MARKET", exchange := str "NSE",
        productType := str "INTRADAY" } := by decide
example :
    parseSignal (str "BUY MARKETX 10 @ 25") =
    some
      { action := str "BUY", symbol := str "MARKETX", quantity := 10,
        price := some 0, orderType := str "MARKET", exchange := str "NSE",
        productType := str "INTRADAY" } := by decide
example : parseSignal (str "BUY RELIANCE 100") = none := by decide

/-! ## Signal store (src/lib/signal-manager.js) -/

/-- The in-memory map from messageId to signal, as an association list
with JS Map insertion-order semantics. -/
abbrev Store := List (Nat × Signal)

/-- JS `Map.prototype.set`: replace in place when the key exists,
otherwise append. -/
def mapSet : Store → Nat → Signal → Store
  | [], k, v => [(k, v)]
  | (k0, v0) :: rest, k, v =>
    if k0 = k then (k0, v) :: rest else (k0, v0) :: mapSet rest k v

/-- getSignal: JS `Map.prototype.get`, with a missing key as `none`. -/
def getSignal : Store → Nat → Option Signal
  | [], _ => none
  | (k, v) :: rest, id => if k = id then some v else getSignal rest id

/-- addSignal: insert or overwrite under the messageId of the signal,
stamping createdAt and updatedAt. -/
def addSignal (st : Store) (signal : Signal) (now : Nat) : Store :=
  mapSet st signal.messageId { signal with createdAt := now, updatedAt := now }

/-- The extra-field object that updateSignalStatus spreads over the
record.  JS allows any keys there; the model carries optional overrides
for the signal fields that matter to the claims (a key the record schema
does not have would be invisible to every property considered here). -/
structure Extra where
  messageId : Option Nat := none
  status : Option Str := none
  entryPrice : Option Dec := none
  stopLoss : Option Dec := none
  target : Option (Option Dec) := none
  exitPrice : Option (Option Dec) := none
  deriving DecidableEq, Repr

/-- The JS object spread of the extra fields over a signal record. -/
def applyExtra (s : Signal) (e : Extra) : Signal :=
  { s with
    messageId := e.messageId.getD s.messageId
    status := e.status.getD s.status
    entryPrice := e.entryPrice.getD s.entryPrice
    stopLoss := e.stopLoss.getD s.stopLoss
    target := e.target.getD s.target
    exitPrice := e.exitPrice.getD s.exitPrice }

/-- updateSignalStatus: merge the extra fields, then set the status and
stamp updatedAt; `none` and an unchanged store when the id is unknown.
The status field is written after the extra spread, as in the source
object literal. -/
def updateSignalStatus (st : Store) (messageId : Nat) (status : Str) (extra : Extra)
    (now : Nat) : Store × Option Signal :=
  match getSignal st messageId with
  | none => (st, none)
  | some signal =>
    let updated := { applyExtra signal extra with status := status, updatedAt := now }
    (mapSet st messageId updated, some updated)

/-- setSignalOrderId: set the order id, force status ACTIVE, stamp
updatedAt. -/
def setSignalOrderId (st : Store) (messageId : Nat) (orderId : Str) (now : Nat) :
    Store × Option Signal :=
  match getSignal st messageId with
  | none => (st, none)
  | some signal =>
    let updated :=
      { signal with orderId := some orderId, status := str "ACTIVE", updatedAt := now }
    (mapSet st messageId updated, some updated)

/-- updateSignalEntry: set entryPrice and stopLoss, stamp updatedAt. -/
def updateSignalEntry (st : Store) (messageId : Nat) (newPrice : Dec) (newSL : Dec)
    (now : Nat) : Store × Option Signal :=
  match getSignal st messageId with
  | none => (st, none)
  | some signal =>
    let updated := { signal with entryPrice := newPrice, stopLoss := newSL, updatedAt := now }
    (mapSet st messageId updated, some updated)

/-- updateSignalSL: set stopLoss, stamp updatedAt. -/
def updateSignalSL (st : Store) (messageId : Nat) (newSL : Dec) (now : Nat) :
    Store × Option Signal :=
  match getSignal st messageId with
  | none => (st, none)
  | some signal =>
    let updated := { signal with stopLoss := newSL, updatedAt := now }
    (mapSet st messageId updated, some updated)

/-- updateSignalTarget: set target, stamp updatedAt. -/
def updateSignalTarget (st : Store) (messageId : Nat) (newTarget : Dec) (now : Nat) :
    Store × Option Signal :=
  match getSignal st messageId with
  | none => (st, none)
  | some signal =>
    let updated := { signal with target := some newTarget, updatedAt := now }
    (mapSet st messageId updated, some updated)

/-- updateSignalSLAndTarget: set stopLoss and target, stamp updatedAt. -/
def updateSignalSLAndTarget (st : Store) (messageId : Nat) (newSL : Dec) (newTarget : Dec)
    (now : Nat) : Store × Option Signal :=
  match getSignal st messageId with
  | none => (st, none)
  | some signal =>
    let updated :=
      { signal with stopLoss := newSL, target := some newTarget, updatedAt := now }
    (mapSet st messageId updated, some updated)

/-- closeSignal: set status CLOSED, the close reason and the exit price
(the JS default for an omitted exit price is null, modelled as `none`),
stamp closedAt and updatedAt. -/
def closeSignal (st : Store) (messageId : Nat) (reason : Str) (exitPrice : Option Dec)
    (now : Nat) : Store × Option Signal :=
  match getSignal st messageId with
  | none => (st, none)
  | some signal =>
    let updated :=
      { signal with
        status := str "CLOSED"
        closeReason := some reason
        exitPrice := exitPrice
        closedAt := some now
        updatedAt := now }
    (mapSet st messageId updated, some updated)

/-- The signal array that saveSignals writes to the snapshot file:
`Array.from(signals.values())` in insertion order. -/
def saveSignalsData (st : Store) : List Signal := st.map Prod.snd

/-- loadSignals replaying a snapshot into a store: for each signal in
file order, `signals.set(signal.messageId, signal)`. -/
def loadSignalsInto (st : Store) (sigs : List Signal) : Store :=
  sigs.foldl (fun acc s => mapSet acc s.messageId s) st

/-! ## Reply dispatcher store effect (src/index.js, handleReplyMessage) -/

/-- The store effect of handleReplyMessage: look up the tracked signal
(no tracked signal is a logged no-op before the reply is even parsed),
parse the reply, and apply the per-action mutations of the switch.
Broker order placement is external; its outcome for the revised-entry
path is supplied as `placedOrderId` and the exit-order calls have no
store effect. -/
def handleReplyMessage (st : Store) (replyToMsgId : Nat) (text : Str) (now : Nat)
    (placedOrderId : Option Str) : Store :=
  match getSignal st replyToMsgId with
  | none => st
  | some originalSignal =>
    match parseReplyMessage text with
    | none => st
    | some action =>
      match action with
      | .BOOK_PROFIT price => (closeSignal st replyToMsgId (str "PROFIT") price now).1
      | .EXIT_COST =>
        (closeSignal st replyToMsgId (str "COST") (some originalSignal.entryPrice) now).1
      | .WAIT => (updateSignalStatus st replyToMsgId (str "WAITING") {} now).1
      | .FOLLOW => st
      | .SL_HIT => (closeSignal st replyToMsgId (str "SL_HIT") none now).1
      | .REVISED_ENTRY price newSL =>
        let st1 := (updateSignalEntry st replyToMsgId price newSL now).1
        match getSignal st1 replyToMsgId with
        | none => st1
        | some _ =>
          match placedOrderId with
          | some oid => (setSignalOrderId st1 replyToMsgId oid now).1
          | none => st1
      | .UPDATE_SL newSL => (updateSignalSL st replyToMsgId newSL now).1
      | .UPDATE_TARGET newTarget => (updateSignalTarget st replyToMsgId newTarget now).1
      | .UPDATE_SL_TARGET newSL newTarget =>
        (updateSignalSLAndTarget st replyToMsgId newSL newTarget now).1

/-! ## Sample data used by witnesses and counterexamples -/

/-- A freshly parsed example signal. -/
def sampleSignal (id : Nat) : Signal :=
  { messageId := id, action := str "BUY", symbol := str "HINDZINC", strike := 750,
    optionType := str "CE", entryPrice := 33, stopLoss := dec 1525 2,
    originalSL := dec 305 1, target := some 36, expiry := str "FEB",
    status := str "PENDING" }

/-- The record reached by adding the example signal at time 0 and closing
it manually at price 42 at time 3. -/
def sampleClosedSignal : Signal :=
  { sampleSignal 1 with
    updatedAt := 3, status := str "CLOSED", closeReason := some (str "MANUAL"),
    exitPrice := some 42, closedAt := some 3 }

/-- A store holding one CLOSED signal, reached by store operations. -/
def sampleClosedStore : Store :=
  (closeSignal (addSignal [] (sampleSignal 1) 0) 1 (str "MANUAL") (some 42) 3).1

example : getSignal sampleClosedStore 1 = some sampleClosedSignal := by decide

/-- A store holding one open signal. -/
def sampleActiveStore : Store := addSignal [] (sampleSignal 1) 0

/-! ## Store lemmas -/

theorem getSignal_mapSet_self (st : Store) (k : Nat) (v : Signal) :
    getSignal (mapSet st k v) k = some v := by
  induction st with
  | nil => simp [mapSet, getSignal]
  | cons p rest ih =>
    obtain ⟨k0, v0⟩ := p
    by_cases h : k0 = k
    · simp [mapSet, h, getSignal]
    · simp [mapSet, h, getSignal, ih]

theorem applyExtra_empty (s : Signal) : applyExtra s {} = s := rfl

/-! ## Claim C1 -/

/-- C1 counterexample: the store does guard nothing on a CLOSED signal.
The sample store tracks message 1 as a CLOSED record with stop loss
15.25, yet updateSignalSL succeeds and rewrites the stop loss to 99. -/
theorem C1_counterexample :
    getSignal sampleClosedStore 1 = some sampleClosedSignal ∧
    sampleClosedSignal.status = str "CLOSED" ∧
    sampleClosedSignal.stopLoss = dec 1525 2 ∧
    (updateSignalSL sampleClosedStore 1 99 5).2 =
      some { sampleClosedSignal with stopLoss := 99, updatedAt := 5 } ∧
    (99 : Dec) ≠ dec 1525 2 := by decide

/-- C1 amended: the store operations apply to a CLOSED signal without
any guard.  On a tracked CLOSED record, updateSignalSL,
updateSignalTarget, updateSignalEntry and updateSignalSLAndTarget each
succeed and mutate the named trading fields (those four leave the status
CLOSED because they do not touch it), and updateSignalStatus overwrites
even the CLOSED status with the requested one.  Only re-closing via
closeSignal is idempotent up to timestamps; CLOSED-terminality is not
enforced by the store. -/
theorem C1_amended : ∀ (st : Store) (id now : Nat) (s : Signal),
    getSignal st id = some s → s.status = str "CLOSED" →
    (∀ sl, (updateSignalSL st id sl now).2 =
      some { s with stopLoss := sl, updatedAt := now }) ∧
    (∀ t, (updateSignalTarget st id t now).2 =
      some { s with target := some t, updatedAt := now }) ∧
    (∀ p sl, (updateSignalEntry st id p sl now).2 =
      some { s with entryPrice := p, stopLoss := sl, updatedAt := now }) ∧
    (∀ sl t, (updateSignalSLAndTarget st id sl t now).2 =
      some { s with stopLoss := sl, target := some t, updatedAt := now }) ∧
    (∀ stat, (updateSignalStatus st id stat {} now).2 =
      some { s with status := stat, updatedAt := now }) := by
  intro st id now s h hclosed
  refine ⟨?_, ?_, ?_, ?_, ?_⟩ <;> intros <;>
    simp [updateSignalSL, updateSignalTarget, updateSignalEntry,
      updateSignalSLAndTarget, updateSignalStatus, applyExtra_empty, h]

/-- C1 witness: the amended statement applied to the sample CLOSED
store. -/
theorem C1_witness :
    (updateSignalSL sampleClosedStore 1 77 9).2 =
      some { sampleClosedSignal with stopLoss := 77, updatedAt := 9 } :=
  (C1_amended sampleClosedStore 1 9 sampleClosedSignal (by decide) (by decide)).1 77

/-! ## Claim C2 -/

/-- C2: evaluation of parseReplyMessage at the combined reply
SL 35 TARGET 45.  The cascade yields the lone-target action
UPDATE_TARGET with 45, not UPDATE_SL_TARGET: the unanchored lone-target
rule matches the TARGET 45 part first and its HIT, DONE and BOOK guards
do not block a text that also carries an SL value, so the combined rule
is never reached for this shape. -/
theorem C2_combined_eval :
    parseReplyMessage (str "SL 35 TARGET 45") =
      some (ReplyAction.UPDATE_TARGET 45) := by decide

/-! ## Claim C3 -/

/-- C3 counterexample: closing twice restamps closedAt, so the record
after the second close differs from the record after the first close in
closedAt as well, not only in updatedAt. -/
theorem C3_counterexample :
    ((closeSignal ((closeSignal sampleActiveStore 1 (str "PROFIT") (some 40) 10).1) 1
        (str "PROFIT") (some 40) 11).2).map Signal.closedAt = some (some 11) ∧
    ((closeSignal sampleActiveStore 1 (str "PROFIT") (some 40) 10).2).map Signal.closedAt =
      some (some 10) ∧ some (11 : Nat) ≠ some (10 : Nat) := by decide

/-- C3 amended: calling close twice with the same reason and price
leaves the record after the second call identical to the record after
the first call in every field except updatedAt and closedAt, which are
both restamped to the time of the second call; in particular the status
stays CLOSED and closeReason, exitPrice and all trading fields are
unchanged. -/
theorem C3_amended : ∀ (st : Store) (id : Nat) (r : Str) (p : Option Dec)
    (t1 t2 : Nat) (u1 : Signal),
    (closeSignal st id r p t1).2 = some u1 →
    (closeSignal (closeSignal st id r p t1).1 id r p t2).2 =
      some { u1 with updatedAt := t2, closedAt := some t2 } := by
  intro st id r p t1 t2 u1 h
  unfold closeSignal at h ⊢
  cases hg : getSignal st id with
  | none => rw [hg] at h; cases h
  | some s =>
    rw [hg] at h
    simp only [Option.some.injEq] at h
    subst h
    simp [getSignal_mapSet_self]

/-- The record reached by closing the open sample store for profit at
price 40 at time 10. -/
def sampleClosedAt10 : Signal :=
  { sampleSignal 1 with
    updatedAt := 10, status := str "CLOSED", closeReason := some (str "PROFIT"),
    exitPrice := some 40, closedAt := some 10 }

/-- C3 witness: the amended statement applied to a concrete double
close. -/
theorem C3_witness :
    (closeSignal (closeSignal sampleActiveStore 1 (str "PROFIT") (some 40) 10).1 1
        (str "PROFIT") (some 40) 11).2 =
      some { sampleClosedAt10 with updatedAt := 11, closedAt := some 11 } :=
  C3_amended sampleActiveStore 1 (str "PROFIT") (some 40) 10 11 sampleClosedAt10 (by decide)

/-! ## Claim C4 -/

/-- The example entry message of the specification. -/
def sampleEntryMsg : Str :=
  str "BUY HINDZINC\n750 CE ABOVE 33\nSL 30.5 TARGET 36 40\nFEBRUARY SERIES"

/-- The signal the example entry message parses to. -/
def sampleEntryOut : Signal :=
  { messageId := 1, action := str "BUY", symbol := str "HINDZINC", strike := 750,
    optionType := str "CE", entryPrice := 33, stopLoss := dec 1525 2,
    originalSL := dec 305 1, target := some 36, expiry := str "FEB",
    status := str "PENDING" }

/-- C4: every accepted entry text yields a signal whose stopLoss is
exactly half (in rational value) of the stop loss stated after SL on
line 3, whose originalSL is the stated value, and whose target is the
head of the parsed target list (all later targets discarded); and the
example message parses to exactly the record the specification states,
with stopLoss 15.25 for stated SL 30.5 and target 36 with 40
discarded. -/
theorem C4_parseEntry :
    (∀ (nowMonth message : Str) (id : Nat) (sig : Signal),
        parseOptionsSignal nowMonth message id = some sig →
        sig.stopLoss = halfDec sig.originalSL ∧
        sig.stopLoss.toRat = sig.originalSL.toRat * (1 / 2) ∧
        ∃ ts, matchLine3 ((entryLines message).getD 2 []) = some (sig.originalSL, ts) ∧
          sig.target = (parseTargets ts).head?) ∧
    (∀ nowMonth, parseOptionsSignal nowMonth sampleEntryMsg 1 = some sampleEntryOut) := by
  constructor
  · intro nowMonth message id sig h
    unfold parseOptionsSignal at h
    split at h
    · cases h
    · cases h1 : matchLine1 ((entryLines message).getD 0 []) with
      | none => rw [h1] at h; cases h
      | some l1 =>
        obtain ⟨action, symbol⟩ := l1
        rw [h1] at h
        cases h2 : matchLine2 ((entryLines message).getD 1 []) with
        | none => rw [h2] at h; cases h
        | some l2 =>
          obtain ⟨strike, optionType, entryPrice⟩ := l2
          rw [h2] at h
          cases h3 : matchLine3 ((entryLines message).getD 2 []) with
          | none => rw [h3] at h; cases h
          | some l3 =>
            obtain ⟨definedSL, targetsRaw⟩ := l3
            rw [h3] at h
            simp only [Option.some.injEq] at h
            subst h
            exact ⟨rfl, halfDec_toRat definedSL, targetsRaw, rfl, rfl⟩
  · intro nowMonth
    rfl

/-- C4 witness: the general statement applied to the example message. -/
theorem C4_witness :
    sampleEntryOut.stopLoss = halfDec sampleEntryOut.originalSL ∧
    sampleEntryOut.stopLoss.toRat = sampleEntryOut.originalSL.toRat * (1 / 2) ∧
    ∃ ts, matchLine3 ((entryLines sampleEntryMsg).getD 2 []) =
        some (sampleEntryOut.originalSL, ts) ∧
      sampleEntryOut.target = (parseTargets ts).head? :=
  C4_parseEntry.1 (str "JAN") sampleEntryMsg 1 sampleEntryOut (by decide)

/-! ## Claim C5 -/

/-- C5: the entry parser is all-or-nothing.  Whenever fewer than three
non-empty trimmed lines remain, or line 1 fails the anchored action and
symbol pattern, or line 2 fails the anchored strike, option type, ABOVE
and entry price pattern, or line 3 fails the anchored SL, value and
target-list pattern, parseOptionsSignal returns none; a partial signal
is never produced. -/
theorem C5_allOrNothing : ∀ (nowMonth message : Str) (id : Nat),
    ((entryLines message).length < 3 ∨
      matchLine1 ((entryLines message).getD 0 []) = none ∨
      matchLine2 ((entryLines message).getD 1 []) = none ∨
      matchLine3 ((entryLines message).getD 2 []) = none) →
    parseOptionsSignal nowMonth message id = none := by
  intro nowMonth message id h
  unfold parseOptionsSignal
  split
  · rfl
  · rename_i hlen
    rcases h with h | h | h | h
    · exact absurd h hlen
    · rw [h]
    · cases h1 : matchLine1 ((entryLines message).getD 0 []) with
      | none => rfl
      | some l1 => obtain ⟨a, b⟩ := l1; rw [h]
    · cases h1 : matchLine1 ((entryLines message).getD 0 []) with
      | none => rfl
      | some l1 =>
        obtain ⟨a, b⟩ := l1
        cases h2 : matchLine2 ((entryLines message).getD 1 []) with
        | none => rfl
        | some l2 => obtain ⟨c, d, e⟩ := l2; rw [h]

/-- C5 witness: a message whose third line fails the SL-and-TARGET
pattern is rejected outright. -/
theorem C5_witness :
    parseOptionsSignal (str "JAN") (str "BUY HINDZINC\n750 CE ABOVE 33\nno stop here") 7 =
      none :=
  C5_allOrNothing (str "JAN") (str "BUY HINDZINC\n750 CE ABOVE 33\nno stop here") 7
    (Or.inr (Or.inr (Or.inr (by decide))))

/-! ## Claim C6 -/

/-- A store reachable by store operations in which a setStatus call
carried a messageId override in its extra fields: the record stored
under key 1 claims messageId 2, colliding with the record under key 2. -/
def demoStoreC6 : Store :=
  (updateSignalStatus (addSignal (addSignal [] (sampleSignal 2) 0) (sampleSignal 1) 1) 1
    (str "ACTIVE") { messageId := some 2 } 2).1

/-- C6 counterexample: snapshot-write followed by snapshot-load into an
empty store does not reproduce the signal set of every reachable store.
After a setStatus whose extra fields override messageId, two stored
records carry the same messageId, and reloading collapses them into
one. -/
theorem C6_counterexample :
    (loadSignalsInto [] (saveSignalsData demoStoreC6)).map Prod.snd ≠
      demoStoreC6.map Prod.snd ∧
    (loadSignalsInto [] (saveSignalsData demoStoreC6)).length = 1 ∧
    demoStoreC6.length = 2 := by decide

theorem mapSet_fresh : ∀ (st : Store) (k : Nat) (v : Signal),
    k ∉ st.map Prod.fst → mapSet st k v = st ++ [(k, v)] := by
  intro st
  induction st with
  | nil => intros; rfl
  | cons p rest ih =>
    intro k v hk
    obtain ⟨k0, v0⟩ := p
    simp only [List.map_cons, List.mem_cons, not_or] at hk
    simp [mapSet, Ne.symm hk.1, ih k v hk.2]

theorem loadInto_fresh : ∀ (sigs : List Signal) (st0 : Store),
    (sigs.map Signal.messageId).Nodup →
    (∀ s ∈ sigs, s.messageId ∉ st0.map Prod.fst) →
    loadSignalsInto st0 sigs = st0 ++ sigs.map (fun s => (s.messageId, s)) := by
  intro sigs
  induction sigs with
  | nil => intro st0 _ _; simp [loadSignalsInto]
  | cons s rest ih =>
    intro st0 hnd hfresh
    simp only [List.map_cons, List.nodup_cons] at hnd
    have hstep : loadSignalsInto st0 (s :: rest) =
        loadSignalsInto (mapSet st0 s.messageId s) rest := rfl
    rw [hstep, mapSet_fresh st0 s.messageId s (hfresh s (by simp))]
    rw [ih (st0 ++ [(s.messageId, s)]) hnd.2 ?_]
    · simp
    · intro s2 hs2
      simp only [List.map_append, List.mem_append, List.map_cons, List.map_nil,
        List.mem_singleton, not_or]
      refine ⟨hfresh s2 (by simp [hs2]), ?_⟩
      intro hcontra
      exact hnd.1 (hcontra ▸ List.mem_map_of_mem Signal.messageId hs2)

theorem saved_pairs : ∀ st : Store, (∀ p ∈ st, (p.2).messageId = p.1) →
    (saveSignalsData st).map (fun s => (s.messageId, s)) = st := by
  intro st
  induction st with
  | nil => intro _; rfl
  | cons p rest ih =>
    intro hkey
    obtain ⟨k, v⟩ := p
    have hk : v.messageId = k := hkey (k, v) (by simp)
    simp only [saveSignalsData, List.map_cons] at *
    rw [hk]
    exact congrArg (List.cons (k, v)) (ih fun q hq => hkey q (by simp [hq]))

theorem saved_ids : ∀ st : Store, (∀ p ∈ st, (p.2).messageId = p.1) →
    (saveSignalsData st).map Signal.messageId = st.map Prod.fst := by
  intro st
  induction st with
  | nil => intro _; rfl
  | cons p rest ih =>
    intro hkey
    obtain ⟨k, v⟩ := p
    have hk : v.messageId = k := hkey (k, v) (by simp)
    simp only [saveSignalsData, List.map_cons] at *
    rw [hk]
    exact congrArg (List.cons k) (ih fun q hq => hkey q (by simp [hq]))

/-- C6 amended: the round trip holds for every store state in which each
record is keyed by its own messageId and keys are distinct, which is
every state reachable without passing a messageId override through the
extra fields of setStatus: writing the snapshot and loading it into an
empty store reproduces the identical store, field by field and in
order. -/
theorem C6_amended : ∀ st : Store,
    (∀ p ∈ st, (p.2).messageId = p.1) → (st.map Prod.fst).Nodup →
    loadSignalsInto [] (saveSignalsData st) = st := by
  intro st hkey hnd
  rw [loadInto_fresh (saveSignalsData st) [] (by rw [saved_ids st hkey]; exact hnd)
    (by intro s hs; simp)]
  rw [List.nil_append, saved_pairs st hkey]

/-- A two-signal store built by ordinary store operations, keyed
consistently. -/
def goodStoreC6 : Store := addSignal (addSignal [] (sampleSignal 2) 0) (sampleSignal 1) 1

/-- C6 witness: the amended round trip on a concrete two-signal store. -/
theorem C6_witness : loadSignalsInto [] (saveSignalsData goodStoreC6) = goodStoreC6 :=
  C6_amended goodStoreC6 (by decide) (by decide)

/-! ## Claim C7 -/

/-- C7: every keyed mutating operation on a messageId that is not
present in the store returns none and leaves the store unchanged, and
dispatching any reply text that references an untracked messageId
leaves the store untouched whatever the reply text and whatever the
broker order outcome. -/
theorem C7_unknownId : ∀ (st : Store) (id : Nat), getSignal st id = none →
    (∀ stat extra now, updateSignalStatus st id stat extra now = (st, none)) ∧
    (∀ oid now, setSignalOrderId st id oid now = (st, none)) ∧
    (∀ p sl now, updateSignalEntry st id p sl now = (st, none)) ∧
    (∀ sl now, updateSignalSL st id sl now = (st, none)) ∧
    (∀ t now, updateSignalTarget st id t now = (st, none)) ∧
    (∀ sl t now, updateSignalSLAndTarget st id sl t now = (st, none)) ∧
    (∀ r p now, closeSignal st id r p now = (st, none)) ∧
    (∀ text now oid, handleReplyMessage st id text now oid = st) := by
  intro st id h
  refine ⟨?_, ?_, ?_, ?_, ?_, ?_, ?_, ?_⟩ <;> intros <;>
    simp [updateSignalStatus, setSignalOrderId, updateSignalEntry, updateSignalSL,
      updateSignalTarget, updateSignalSLAndTarget, closeSignal, handleReplyMessage, h]

/-- C7 witness: the statement applied to the empty store and message id
7, for one field update and one full reply dispatch. -/
theorem C7_witness :
    updateSignalSL [] 7 35 1 = ([], none) ∧
    handleReplyMessage [] 7 (str "SL") 1 none = [] := by
  have h := C7_unknownId [] 7 (by decide)
  exact ⟨h.2.2.2.1 35 1, h.2.2.2.2.2.2.2 (str "SL") 1 none⟩

/-! ## Claim C8 -/

/-- C8: closing a tracked signal with the exit-price argument omitted
(the JS default null) stores exitPrice null unconditionally, overwriting
any previously stored exit price; and the SL_HIT dispatch path, which
calls close with two arguments, always leaves exitPrice null. -/
theorem C8_closeNoPrice :
    (∀ (st : Store) (id : Nat) (r : Str) (now : Nat) (s : Signal),
        getSignal st id = some s →
        (closeSignal st id r none now).2 =
          some { s with
                 status := str "CLOSED", closeReason := some r, exitPrice := none,
                 closedAt := some now, updatedAt := now }) ∧
    (∀ (st : Store) (id now : Nat) (oid : Option Str) (s : Signal),
        getSignal st id = some s →
        getSignal (handleReplyMessage st id (str "SL") now oid) id =
          some { s with
                 status := str "CLOSED", closeReason := some (str "SL_HIT"),
                 exitPrice := none, closedAt := some now, updatedAt := now }) := by
  constructor
  · intro st id r now s h
    simp [closeSignal, h]
  · intro st id now oid s h
    have hp : parseReplyMessage (str "SL") = some ReplyAction.SL_HIT := by decide
    simp [handleReplyMessage, h, hp, closeSignal, getSignal_mapSet_self]

/-- C8 witness: on the sample CLOSED store, whose record carries
exitPrice 42, a close with the price omitted stores exitPrice none. -/
theorem C8_witness :
    (closeSignal sampleClosedStore 1 (str "MANUAL") none 9).2 =
      some { sampleClosedSignal with
             status := str "CLOSED", closeReason := some (str "MANUAL"),
             exitPrice := none, closedAt := some 9, updatedAt := 9 } :=
  C8_closeNoPrice.1 sampleClosedStore 1 (str "MANUAL") 9 sampleClosedSignal (by decide)

/-! ## Claim C9 -/

/-- C9: whatever extra-field object is passed to updateSignalStatus,
even one that itself carries a status override, the resulting record has
exactly the status passed as the status parameter, because the status
field is written after the extra fields are spread. -/
theorem C9_statusParamWins : ∀ (st : Store) (id : Nat) (status : Str) (extra : Extra)
    (now : Nat) (u : Signal),
    (updateSignalStatus st id status extra now).2 = some u → u.status = status := by
  intro st id status extra now u h
  unfold updateSignalStatus at h
  cases hg : getSignal st id with
  | none => rw [hg] at h; cases h
  | some s =>
    rw [hg] at h
    simp only [Option.some.injEq] at h
    rw [← h]

/-- The record produced by the witness call of C9. -/
def sampleC9Out : Signal :=
  { sampleSignal 1 with updatedAt := 5, status := str "ACTIVE" }

/-- C9 witness: a status parameter ACTIVE beats an extra-field override
CLOSED. -/
theorem C9_witness :
    (updateSignalStatus sampleActiveStore 1 (str "ACTIVE")
        { status := some (str "CLOSED") } 5).2 = some sampleC9Out ∧
    sampleC9Out.status = str "ACTIVE" :=
  ⟨by decide,
    C9_statusParamWins sampleActiveStore 1 (str "ACTIVE")
      { status := some (str "CLOSED") } 5 sampleC9Out (by decide)⟩

/-! ## Claim C10 -/

/-- C10: whenever the legacy regex matches in its limit-order form (the
price group is present) but the text contains the substring MARKET
anywhere, such as inside the symbol, parseSignal returns order type
MARKET with price 0 and discards the stated limit price; in particular
on BUY MARKETX 10 at-sign 25 the word MARKET only occurs inside the
symbol and the stated price 25 is still discarded. -/
theorem C10_marketInSymbol :
    (∀ (message : Str) (g : SigGroups) (p : Dec),
        matchSignalRegex (upperChars (trimChars message)) = some g →
        g.price = some p →
        containsSub (str "MARKET") (upperChars (trimChars message)) = true →
        ∃ sig, parseSignal message = some sig ∧
          sig.orderType = str "MARKET" ∧ sig.price = some 0) ∧
    parseSignal (str "BUY MARKETX 10 @ 25") =
      some { action := str "BUY", symbol := str "MARKETX", quantity := 10, price := some 0,
             orderType := str "MARKET", exchange := str "NSE",
             productType := str "INTRADAY" } := by
  constructor
  · intro message g p hm hp hc
    refine
      ⟨{ action := g.action, symbol := g.symbol, quantity := g.quantity,
         price := some 0, orderType := str "MARKET",
         exchange := g.exchange.getD (str "NSE"),
         productType := g.product.getD (str "INTRADAY") }, ?_, rfl, rfl⟩
    simp [parseSignal, hm, hc]
  · decide

/-- The capture groups of the witness input of C10. -/
def sampleGroups25 : SigGroups :=
  { action := str "BUY", exchange := none, symbol := str "MARKETX", quantity := 10,
    price := some 25, product := none }

/-- C10 witness: the general statement applied to the witness input,
whose regex match is in limit form with stated price 25. -/
theorem C10_witness :
    ∃ sig, parseSignal (str "BUY MARKETX 10 @ 25") = some sig ∧
      sig.orderType = str "MARKET" ∧ sig.price = some 0 :=
  C10_marketInSymbol.1 (str "BUY MARKETX 10 @ 25") sampleGroups25 25
    (by decide) (by decide) (by decide)
